import Mathlib

/-!
Verification development for the Auto-trading-bot repository.

The repository's core is the trading-cycle engine `AutoTradingBot2` in
`src/bot2.js` (P2PB2B venue), together with two closely related variants of
`AutoTradingBot` (Azbit venue) that live in the same packaged source file.
This file is a shallow embedding of that engine: JavaScript numbers are
modelled as rationals, `toFixed(n)` as rounding to n decimal places
(half away from zero towards plus infinity, as ECMAScript specifies),
stateful methods as explicit state passing over a `W` (world) record, and
the exchange/network as oracle streams of responses consumed in call order.
Every exchange-level call, wait, and process exit is recorded in an event
trace so that theorems can speak about what the engine did.
-/

namespace Bot

/-- Order side, the `'buy'` / `'sell'` strings of the source. -/
inductive Side where
  | buy
  | sell
deriving Repr, DecidableEq

/-- The `action === 'buy' ? 'sell' : 'buy'` flip used throughout the source. -/
def flipSide : Side → Side
  | Side.buy => Side.sell
  | Side.sell => Side.buy

/-- JavaScript `x.toFixed(8)` on a non-negative value, as a rational:
round to the nearest multiple of `1/10^8`, ties towards plus infinity. -/
def fix8 (x : ℚ) : ℚ := ((Int.floor (x * 100000000 + 1/2) : ℚ)) / 100000000

/-- JavaScript `x.toFixed(2)` as a rational (used for the random
percentage adjustment `(2 + Math.random() * 3).toFixed(2)`). -/
def fix2 (x : ℚ) : ℚ := ((Int.floor (x * 100 + 1/2) : ℚ)) / 100

/-- Pad a digit string with leading zeros up to width `k`. -/
def padZeros (s : String) (k : ℕ) : String :=
  String.mk (List.replicate (k - s.length) '0') ++ s

/-- JavaScript `x.toFixed(8)` on a non-negative value, as the decimal
string the source passes around for prices and amounts. -/
def fix8String (x : ℚ) : String :=
  let n : ℕ := (Int.floor (x * 100000000 + 1/2)).toNat
  Nat.repr (n / 100000000) ++ "." ++ padZeros (Nat.repr (n % 100000000)) 8

/-- Numeric value of a list of decimal digit characters. -/
def digitsVal (cs : List Char) : ℕ :=
  cs.foldl (fun a c => 10 * a + (c.toNat - 48)) 0

/-- JavaScript `parseFloat` restricted to the `"digits.digits"` strings
produced by `fix8String` (all the source ever parses back). -/
def parseFix (s : String) : ℚ :=
  match s.split (fun c => c = '.') with
  | [i] => (digitsVal i.data : ℚ)
  | [i, f] => (digitsVal i.data : ℚ) + (digitsVal f.data : ℚ) / (10 ^ f.length)
  | _ => 0

/-- JavaScript `String.prototype.replace` with a single-character pattern:
replaces only the first occurrence, as the source relies on
(`symbol.replace('/', '')`, `currencyPairCode.replace('_', '/')`). -/
def replaceFirstChar : List Char → Char → List Char → List Char
  | [], _, _ => []
  | c :: cs, t, r => if c = t then r ++ cs else c :: replaceFirstChar cs t r

/-- String-level wrapper for `replaceFirstChar`. -/
def replaceFirst (s : String) (t : Char) (r : String) : String :=
  String.mk (replaceFirstChar s.data t r.data)

/-- `bot2.js` lines 505-527 (`saveTransactionData`), the pure list part:
push the new record, then `slice(-20)` when the length exceeds 20. -/
def saveTransactionList {α : Type} (ts : List α) (t : α) : List α :=
  let ts2 := ts ++ [t]
  if ts2.length > 20 then ts2.drop (ts2.length - 20) else ts2

/-- Result of a `getOrderStatus` call as consumed by the engine:
a `status` string (the engine only compares it with `'error'`) and the
filled percentage. -/
structure OrderStatus where
  status : String
  filled : ℚ
deriving Repr, DecidableEq

/-- The order-details object handed to `createMatchingOrder` and stored in
`pendingOrders`. JavaScript objects have no fixed shape, so the two field
names the two call sites disagree about are `Option`s: `AutoTradingBot2`'s
`executeTradeAction` builds `{type, amount, price, market}` (line 223/234)
while `createMatchingOrder` reads `orderDetails.currencyPairCode`
(line 186); an absent field is `none` (JavaScript `undefined`). -/
structure OrderDetails where
  type : Side
  amount : String
  price : String
  currencyPairCode : Option String
  market : Option String
deriving Repr, DecidableEq

/-- A persisted transaction record (`saveTransactionData` call site,
lines 290-298). -/
structure Tx where
  id : String
  type : Side
  amount : ℚ
  price : ℚ
  total : ℚ
  timestamp : String
  status : String
deriving Repr, DecidableEq

/-- Observable actions of the engine, newest first in the trace. -/
inductive Event where
  | createAttempt (market : String) (side : Side) (amount price : String)
      (result : Option String)
  | matchAttempt
  | statusCheck
  | newCycle (idx : ℕ)
  | pollRound (attempt : ℕ)
  | bothFilled
  | txSaved
  | wait (ms : ℕ)
  | exitProcess (code : ℕ)
deriving Repr, DecidableEq

/-- Oracle streams: the environment's answer to each kind of external call,
consumed in call order. An exhausted stream answers with the failure value
the engine's own error handling produces (`null` order id, `status 'error'`,
zero balance, missing order book). -/
structure Env where
  orderBooks : List (Option (ℚ × ℚ))
  balances : List ℚ
  adjustments : List ℚ
  orderCounts : List ℚ
  createResults : List (Option String)
  statuses : List OrderStatus
deriving Repr, DecidableEq

/-- The world: the `AutoTradingBot2` instance state (constructor,
lines 13-20), the persisted transaction file, the oracle and the trace. -/
structure W where
  lastAction : Side
  isShuttingDown : Bool
  pendingOrders : List (String × OrderDetails)
  currentCycle : ℕ
  ordersInCurrentCycle : ℕ
  targetOrdersInCycle : ℕ
  transactions : List Tx
  env : Env
  events : List Event
deriving Repr, DecidableEq

/-- Append an event to the trace (newest first). -/
def W.record (w : W) (e : Event) : W := { w with events := e :: w.events }

/-- A `setTimeout` suspension of `ms` milliseconds. -/
def W.wait (w : W) (ms : ℕ) : W := w.record (Event.wait ms)

/-- Consume the next order-book answer (`getOrderBook`, lines 120-147:
`null` on any failure). -/
def W.popOrderBook (w : W) : Option (ℚ × ℚ) × W :=
  ((w.env.orderBooks.headD none),
   { w with env := { w.env with orderBooks := w.env.orderBooks.tail } })

/-- Consume the next balance answer (`getBalance`, lines 103-118: `0` on
failure without test mode). -/
def W.popBalance (w : W) : ℚ × W :=
  ((w.env.balances.headD 0),
   { w with env := { w.env with balances := w.env.balances.tail } })

/-- Consume the next `Math.random()` sample used for the price adjustment. -/
def W.popAdjustment (w : W) : ℚ × W :=
  ((w.env.adjustments.headD 0),
   { w with env := { w.env with adjustments := w.env.adjustments.tail } })

/-- Consume the next `Math.random()` sample used by `getRandomOrderCount`. -/
def W.popOrderCount (w : W) : ℚ × W :=
  ((w.env.orderCounts.headD 0),
   { w with env := { w.env with orderCounts := w.env.orderCounts.tail } })

/-- Consume the next exchange order-creation answer. -/
def W.popCreate (w : W) : Option String × W :=
  ((w.env.createResults.headD none),
   { w with env := { w.env with createResults := w.env.createResults.tail } })

/-- Consume the next order-status answer. -/
def W.popStatus (w : W) : OrderStatus × W :=
  ((w.env.statuses.headD { status := "error", filled := 0 }),
   { w with env := { w.env with statuses := w.env.statuses.tail } })

/-- Assoc-list update with `Map.set` semantics: overwrite in place when the
key exists, else append. -/
def setKey (l : List (String × OrderDetails)) (k : String) (v : OrderDetails) :
    List (String × OrderDetails) :=
  if l.any (fun p => p.1 = k) then
    l.map (fun p => if p.1 = k then (k, v) else p)
  else l ++ [(k, v)]

/-- Assoc-list removal with `Map.delete` semantics. -/
def eraseKey (l : List (String × OrderDetails)) (k : String) :
    List (String × OrderDetails) :=
  l.filter (fun p => ¬ p.1 = k)

/-- `getRandomOrderCount` (lines 470-472):
`Math.floor(Math.random() * 5) + 1` for a sample `u ∈ [0,1)`. -/
def getRandomOrderCount (u : ℚ) : ℕ := (Int.floor (u * 5)).toNat + 1

/-- The exchange order-creation call (`this.exchange.createOrder` /
`bot2.js` `createOrder`, lines 149-164): consumes the next oracle answer,
records the attempt with the market, side, amount and price actually sent,
and yields the order id or `null`. The method's `catch` turns any venue
error into `null`, which the oracle models directly. -/
def createOrder (w : W) (symbol : String) (side : Side)
    (amount price : String) : Option String × W :=
  let (res, w) := w.popCreate
  (res, w.record (Event.createAttempt symbol side amount price res))

/-- `createMatchingOrder` (lines 166-198). The `!orderDetails.amount` /
`!orderDetails.price` guards throw (caught below) on a falsy (empty)
string. The opposite side is computed, then the exchange is called with
`orderDetails.currencyPairCode.replace('_', '/')`: when the caller did not
set `currencyPairCode` (as `AutoTradingBot2.executeTradeAction` does not —
it sets `market`), this is `undefined.replace`, a `TypeError` raised
before the exchange call; the method's own `catch` converts every such
throw into a `null` return. -/
def createMatchingOrder (w : W) (od : OrderDetails) : W × Option String :=
  let w := w.record Event.matchAttempt
  if od.amount = "" then (w, none)
  else if od.price = "" then (w, none)
  else
    match od.currencyPairCode with
    | none => (w, none)
    | some cpc =>
      let (res, w) := createOrder w (replaceFirst cpc '_' "/")
        (flipSide od.type) od.amount od.price
      (w, res)

/-- Modelled from the spec: `AutoTradingBot2` calls `this.getOrderStatus`
(lines 216, 263-264) but the class in src defines no such method — only the
sibling `AutoTradingBot` (Azbit) classes do. Per the spec's ExchangeClient
contract, `getOrderFillStatus(orderId)` returns a record with a fill
percentage and a status that is `'error'` on failure, and returns rather
than throws (the sibling implementation catches everything and returns
`{status: 'error'}`). The order id only affects which venue order is
queried, which the oracle stream models. -/
def getOrderStatus (w : W) (_orderId : String) : OrderStatus × W :=
  let (st, w) := w.popStatus
  (st, w.record Event.statusCheck)

/-- `saveTransactionData` (lines 505-527) at the engine level: append the
record to the persisted file with the 20-entry cap. -/
def saveTransactionData (w : W) (t : Tx) : W :=
  let w := w.record Event.txSaved
  { w with transactions := saveTransactionList w.transactions t }

/-- The cycle bootstrap, `executeTrade` lines 347-359: when
`ordersInCurrentCycle >= targetOrdersInCycle`, increment `currentCycle`,
reset `ordersInCurrentCycle`, redraw `targetOrdersInCycle` and flip
`lastAction`; otherwise do nothing. -/
def maybeStartNewCycle (w : W) : W :=
  if w.targetOrdersInCycle ≤ w.ordersInCurrentCycle then
    let (u, w) := w.popOrderCount
    let w := w.record (Event.newCycle (w.currentCycle + 1))
    { w with
      currentCycle := w.currentCycle + 1
      ordersInCurrentCycle := 0
      targetOrdersInCycle := getRandomOrderCount u
      lastAction := flipSide w.lastAction }
  else w

/-- Order pricing in `AutoTradingBot2.executeTrade` (lines 389-416): the
source branches on the action but both branches compute
`(bestAsk * (1 - randomAdjustment/100)).toFixed(8)`. -/
def computeOrderPrice (action : Side) (bestAsk r : ℚ) : ℚ :=
  if action = Side.buy then fix8 (bestAsk * (1 - r / 100))
  else fix8 (bestAsk * (1 - r / 100))

/-- Trade sizing (lines 398/410 and 418-420): `maxTradeValueUSDT / price`
to 8 decimals, then `Math.max(0.1, ...)` again to 8 decimals, where
`maxTradeValueUSDT = balance * 0.3` (line 378). -/
def computeTradeAmount (balance price : ℚ) : ℚ :=
  fix8 (max (1/10) (fix8 (balance * (3/10) / price)))

/-- Order pricing of the `AutoTradingBot` variant without `pendingOrders`
(`bot2.js` packaged lines 1750-1775): a Buy is priced at
`bestBid * (1 + r/100)` and a Sell at `bestAsk * (1 - r/100)`. -/
def computePriceV3 (action : Side) (bestBid bestAsk r : ℚ) : ℚ :=
  if action = Side.buy then fix8 (bestBid * (1 + r / 100))
  else fix8 (bestAsk * (1 - r / 100))

/-- Control points of the engine, one constructor per function or loop of
the source that participates in the mutual recursion:
`trade` = `executeTrade` entry (line 328); `attemptStep` = one iteration of
its retry loop (lines 431-463) carrying `retriesLeft = maxRetries -
retryCount`; `complete` = the post-attempt bookkeeping inside the `try`
(lines 435-450); `tradeAction` = `executeTradeAction` (line 200);
`poll` = one iteration of the fill-polling loop (lines 255-316) carrying
its `retryCount`. -/
inductive Call where
  | trade (exchange symbol : String)
  | attemptStep (retriesLeft : ℕ) (action : Side) (exchange symbol price amount : String)
  | complete (action : Side) (exchange symbol : String)
  | tradeAction (action : Side) (symbol price amount : String)
  | poll (retryCount : ℕ) (action : Side) (symbol firstId matchingId amount price : String)
deriving Repr, DecidableEq

/-- The engine itself. The source's functions are mutually recursive
(`executeTrade` re-invokes itself on failures and after each order;
`executeTradeAction`'s fill-polling loop re-invokes `executeTrade` when a
pair fills), so the embedding runs them through one fuel-indexed
dispatcher; fuel 0 truncates the run. Each branch mirrors the source block
documented on its `Call` constructor. -/
def run : ℕ → W → Call → W
  | 0, w, _ => w
  | Nat.succ fuel, w, c =>
    match c with
    | Call.trade exchange symbol =>
      -- executeTrade, lines 328-467
      if w.isShuttingDown then w
      else
        let (ob, w) := w.popOrderBook
        match ob with
        | none => run fuel (w.wait 30000) (Call.trade exchange symbol)
        | some (_bestBid, bestAsk) =>
          let w := maybeStartNewCycle w
          let (balance, w) := w.popBalance
          if balance = 0 then run fuel (w.wait 30000) (Call.trade exchange symbol)
          else
            let action := if w.lastAction = Side.sell then Side.buy else Side.sell
            let (u, w) := w.popAdjustment
            let r := fix2 (2 + u * 3)
            let price := computeOrderPrice action bestAsk r
            let amount := computeTradeAmount balance price
            run fuel w (Call.attemptStep 3 action exchange symbol
              (fix8String price) (fix8String amount))
    | Call.attemptStep n action exchange symbol price amount =>
      -- while (retryCount < maxRetries && !this.isShuttingDown), lines 431-463
      match n with
      | 0 => w
      | Nat.succ m =>
        if w.isShuttingDown then w
        else
          -- try { await this.executeTradeAction(...) } catch: every callee of
          -- executeTradeAction catches its own errors and its body is wrapped
          -- in its own try/catch, so the call always completes normally.
          match (Except.ok (run fuel w (Call.tradeAction action symbol price amount)) :
              Except Unit W) with
          | Except.ok w1 => run fuel w1 (Call.complete action exchange symbol)
          | Except.error _ =>
            if m = 0 then
              run fuel (w.wait 60000) (Call.trade exchange symbol)
            else
              run fuel (w.wait 5000)
                (Call.attemptStep m action exchange symbol price amount)
    | Call.complete action exchange symbol =>
      -- lines 435-450: increment the cycle counter, update lastAction, and
      -- either continue with the next order of the cycle or break.
      let w := { w with
        ordersInCurrentCycle := w.ordersInCurrentCycle + 1
        lastAction := action }
      if w.ordersInCurrentCycle < w.targetOrdersInCycle ∧ w.isShuttingDown = false then
        run fuel (w.wait 5000) (Call.trade exchange symbol)
      else w
    | Call.tradeAction action symbol price amount =>
      -- executeTradeAction, lines 200-326
      let (orderData, w) := createOrder w symbol action amount price
      match orderData with
      | none => w
      | some orderId =>
        let (orderDetails, w) := getOrderStatus w orderId
        if orderDetails.status = "error" then w
        else
          let od : OrderDetails :=
            { type := action
              amount := amount
              price := price
              currencyPairCode := none
              market := some (replaceFirst symbol '/' "") }
          let w := { w with pendingOrders := setKey w.pendingOrders orderId od }
          let (w, matchingOrderId) := createMatchingOrder w
            { type := action
              amount := amount
              price := price
              currencyPairCode := none
              market := some (replaceFirst symbol '/' "") }
          let w := { w with pendingOrders := eraseKey w.pendingOrders orderId }
          match matchingOrderId with
          | none => w
          | some mid =>
            run fuel w (Call.poll 0 action symbol orderId mid amount price)
    | Call.poll rc action symbol firstId matchingId amount price =>
      -- while (retryCount < maxRetries && !bothOrdersFilled &&
      --        !this.isShuttingDown), lines 255-316; a `bothFilled` exit is a
      -- `break`, so the loop call only recurses on non-exit rounds.
      if rc < 5 ∧ w.isShuttingDown = false then
        let w := w.wait 2000
        let (st1, w) := getOrderStatus w firstId
        let (st2, w) := getOrderStatus w matchingId
        let w := w.record (Event.pollRound (rc + 1))
        if st1.status = "error" ∨ st2.status = "error" then
          run fuel w (Call.poll (rc + 1) action symbol firstId matchingId amount price)
        else if 99 ≤ st1.filled ∧ 99 ≤ st2.filled then
          let w := w.record Event.bothFilled
          -- the source id is interpolated from Date.now(); the clock is not
          -- part of the model and no claim depends on the id
          let w := saveTransactionData w
            { id := "tx-p2pb2b-0"
              type := action
              amount := parseFix amount
              price := parseFix price
              total := parseFix amount * parseFix price
              timestamp := ""
              status := "completed" }
          let w := w.wait 5000
          if w.isShuttingDown = false then
            let w := { w with lastAction := action }
            run fuel w (Call.trade "P2PB2B" symbol)
          else w
        else
          run fuel w (Call.poll (rc + 1) action symbol firstId matchingId amount price)
      else w

/-- `executeTrade(exchange, symbol)` (lines 328-467). -/
def executeTrade (fuel : ℕ) (w : W) (exchange symbol : String) : W :=
  run fuel w (Call.trade exchange symbol)

/-- `executeTradeAction(action, symbol, price, amount)` (lines 200-326). -/
def executeTradeAction (fuel : ℕ) (w : W) (action : Side)
    (symbol price amount : String) : W :=
  run fuel w (Call.tradeAction action symbol price amount)

/-- The fill-polling loop of `executeTradeAction` (lines 249-320), entered
at a given `retryCount`. -/
def pollLoop (fuel : ℕ) (w : W) (rc : ℕ) (action : Side)
    (symbol firstId matchingId amount price : String) : W :=
  run fuel w (Call.poll rc action symbol firstId matchingId amount price)

/-- The post-attempt bookkeeping of `executeTrade`'s retry loop
(lines 435-450). -/
def completeAttempt (fuel : ℕ) (w : W) (action : Side)
    (exchange symbol : String) : W :=
  run fuel w (Call.complete action exchange symbol)

/-- One pass of `executeTrade`'s retry loop (lines 431-463). -/
def attemptLoop (fuel : ℕ) (n : ℕ) (w : W) (action : Side)
    (exchange symbol price amount : String) : W :=
  run fuel w (Call.attemptStep n action exchange symbol price amount)

/-- The `try { await this.executeTradeAction(...) }` view of the pair
attempt: the call either completes with a new world or raises. Its body's
statements all handle their own errors (`createOrder`,
`createMatchingOrder` and `getOrderStatus` catch internally and return
`null`-style values, and the body is itself wrapped in a `catch` that only
logs), so the attempt always completes normally. -/
def executeTradeActionE (fuel : ℕ) (w : W) (action : Side)
    (symbol price amount : String) : Except Unit W :=
  Except.ok (executeTradeAction fuel w action symbol price amount)

/-- One entry of the shutdown reconciliation loop
(`setupShutdownHandlers`, lines 54-63): attempt the matching order; since
`createMatchingOrder` never throws, the `await` always completes and the
`delete` always runs. -/
def shutdownPair : W → List (String × OrderDetails) → W
  | w, [] => w
  | w, (orderId, od) :: rest =>
    let w1 := (createMatchingOrder w od).1
    let w2 := { w1 with pendingOrders := eraseKey w1.pendingOrders orderId }
    shutdownPair w2 rest

/-- `handleShutdown` (lines 43-68): on the first signal set
`isShuttingDown`, best-effort pair every pending order, then
`process.exit(0)`; later signals return immediately. -/
def handleShutdown (w : W) : W :=
  if w.isShuttingDown then w
  else
    let w := { w with isShuttingDown := true }
    let w := shutdownPair w w.pendingOrders
    w.record (Event.exitProcess 0)

/-- Number of exchange order-creation attempts in a trace. -/
def countCreates : List Event → ℕ
  | [] => 0
  | Event.createAttempt _ _ _ _ _ :: es => countCreates es + 1
  | _ :: es => countCreates es

/-- Number of `createMatchingOrder` invocations in a trace. -/
def countMatchAttempts : List Event → ℕ
  | [] => 0
  | Event.matchAttempt :: es => countMatchAttempts es + 1
  | _ :: es => countMatchAttempts es

/-- Number of fill-polling rounds in a trace. -/
def countRounds : List Event → ℕ
  | [] => 0
  | Event.pollRound _ :: es => countRounds es + 1
  | _ :: es => countRounds es

/-- Number of cycle bootstraps in a trace. -/
def countNewCycles : List Event → ℕ
  | [] => 0
  | Event.newCycle _ :: es => countNewCycles es + 1
  | _ :: es => countNewCycles es

/-- An empty oracle: every external call fails. -/
def emptyEnv : Env :=
  { orderBooks := [], balances := [], adjustments := [], orderCounts := []
    createResults := [], statuses := [] }

/-- The freshly constructed bot (constructor lines 13-20) with a first
cycle target of one order. -/
def baseW : W :=
  { lastAction := Side.sell, isShuttingDown := false, pendingOrders := []
    currentCycle := 0, ordersInCurrentCycle := 0, targetOrdersInCycle := 1
    transactions := [], env := emptyEnv, events := [] }

/-- A non-error order status at a given fill percentage. -/
def stOk (q : ℚ) : OrderStatus := { status := "open", filled := q }

/-- The world of C6's concrete scenario: two orders pending at the moment
the first termination signal arrives. -/
def c6World : W :=
  { baseW with pendingOrders :=
      [("o1", { type := Side.buy, amount := "1", price := "2",
                currencyPairCode := none, market := some "BRILUSDT" }),
       ("o2", { type := Side.sell, amount := "3", price := "4",
                currencyPairCode := none, market := some "BRILUSDT" })] }

/-- The world of C1's and C8's concrete scenario: the exchange accepts the
first order as `"o1"` and the follow-up status check is not an error. -/
def c1World : W :=
  { baseW with env :=
      { emptyEnv with createResults := [some "o1"], statuses := [stOk 0] } }

/-- The exact order-details record `AutoTradingBot2.executeTradeAction`
passes to `createMatchingOrder` (lines 234-239): a `market` field but no
`currencyPairCode`. -/
def c8Od : OrderDetails :=
  { type := Side.buy, amount := "0.30927835", price := "97.00000000",
    currencyPairCode := none, market := some "BRILUSDT" }

/-- A state at its cycle target, about to bootstrap with a fresh random
sample. -/
def c7World : W :=
  { baseW with
    ordersInCurrentCycle := 1
    env := { emptyEnv with orderCounts := [0] } }

/-- The world of C10's concrete scenario: the exchange accepts the first
order but the immediate status check fails. -/
def c10World : W :=
  { baseW with env :=
      { emptyEnv with
        createResults := [some "o1"]
        statuses := [{ status := "error", filled := 0 }] } }

/-- The world of C2's counterexample: a healthy market and balance, but an
exchange that rejects every order creation. -/
def c2World : W :=
  { baseW with env :=
      { emptyEnv with
        orderBooks := [some (95, 100)]
        balances := [100]
        adjustments := [0]
        createResults := [none] } }

/-- Constructor-level rationals for the fill fixture (98.5, 99.2, 99.5 —
kernel-computable, unlike division on `ℚ`). -/
def q985 : ℚ := ⟨197, 2, by norm_num, by norm_num⟩

def q992 : ℚ := ⟨496, 5, by norm_num, by norm_num⟩

def q995 : ℚ := ⟨199, 2, by norm_num, by norm_num⟩

/-- The spec's fill fixture: both legs below threshold on attempts 1-2,
both at 99.5% on attempt 3, further answers available for attempts 4-5. -/
def c5FixtureW : W :=
  { baseW with env :=
      { emptyEnv with statuses :=
          [stOk 50, stOk 98, stOk q985, stOk q992, stOk q995, stOk q995,
           stOk 50, stOk 50, stOk 50, stOk 50] } }

/-- The state change of one non-exit round of the fill-polling loop: the
2-second wait, the two concurrent status queries, and the consumed
attempt. -/
def pollStep (w : W) (rc : ℕ) : W :=
  { w with
    env := { w.env with statuses := w.env.statuses.tail.tail }
    events := Event.pollRound (rc + 1) :: Event.statusCheck ::
      Event.statusCheck :: Event.wait 2000 :: w.events }

/-- Remaining budget of fill-polling rounds of a control point. -/
def pollBudget : Call → ℕ
  | Call.poll rc _ _ _ _ _ _ => 5 - rc
  | _ => 0

/-- A status oracle whose first poll answer is a transient error. -/
def c5ErrW : W :=
  { baseW with env :=
      { emptyEnv with statuses := [{ status := "error", filled := 0 }, stOk 100] } }

/-- A status oracle on which all five polling rounds report 50% fills. -/
def c5ExhaustW : W :=
  { baseW with env := { emptyEnv with statuses := List.replicate 10 (stOk 50) } }

/-- The world after the polling loop has exhausted its five attempts. -/
def c5ExhaustEnd : W :=
  pollLoop 11 c5ExhaustW 0 Side.buy "BRIL/USDT" "o1" "m1" "a" "p"

theorem popOrderBook_eq (w : W) :
    w.popOrderBook = (w.env.orderBooks.headD none,
      { w with env := { w.env with orderBooks := w.env.orderBooks.tail } }) := rfl

theorem popBalance_eq (w : W) :
    w.popBalance = (w.env.balances.headD 0,
      { w with env := { w.env with balances := w.env.balances.tail } }) := rfl

theorem popAdjustment_eq (w : W) :
    w.popAdjustment = (w.env.adjustments.headD 0,
      { w with env := { w.env with adjustments := w.env.adjustments.tail } }) := rfl

theorem popOrderCount_eq (w : W) :
    w.popOrderCount = (w.env.orderCounts.headD 0,
      { w with env := { w.env with orderCounts := w.env.orderCounts.tail } }) := rfl

theorem popCreate_eq (w : W) :
    w.popCreate = (w.env.createResults.headD none,
      { w with env := { w.env with createResults := w.env.createResults.tail } }) := rfl

theorem popStatus_eq (w : W) :
    w.popStatus = (w.env.statuses.headD { status := "error", filled := 0 },
      { w with env := { w.env with statuses := w.env.statuses.tail } }) := rfl

theorem record_eq (w : W) (e : Event) : w.record e = { w with events := e :: w.events } := rfl

theorem wait_eq (w : W) (ms : ℕ) :
    w.wait ms = { w with events := Event.wait ms :: w.events } := rfl

/-- Evaluation rule for `fix8`: whenever the scaled argument plus `1/2`
lies in `[n, n+1)`, the rounding yields `n/10^8`. -/
theorem fix8_of_bounds (x : ℚ) (n : ℤ) (h1 : (n : ℚ) ≤ x * 100000000 + 1/2)
    (h2 : x * 100000000 + 1/2 < n + 1) : fix8 x = (n : ℚ) / 100000000 := by
  unfold fix8
  rw [Int.floor_eq_iff.mpr ⟨h1, by push_cast; linarith⟩]

/-- Rounding to the `1/10^8` grid fixes values already on the grid. -/
theorem fix8_int_div (n : ℤ) : fix8 ((n : ℚ) / 100000000) = (n : ℚ) / 100000000 := by
  have h : (n : ℚ) / 100000000 * 100000000 = (n : ℚ) := by field_simp
  apply fix8_of_bounds
  · rw [h]; linarith
  · rw [h]; linarith

/-- `fix8` is monotone. -/
theorem fix8_mono {x y : ℚ} (h : x ≤ y) : fix8 x ≤ fix8 y := by
  unfold fix8
  have hf : Int.floor (x * 100000000 + 1/2) ≤ Int.floor (y * 100000000 + 1/2) :=
    Int.floor_mono (by linarith)
  have : ((Int.floor (x * 100000000 + 1/2) : ℚ)) ≤ (Int.floor (y * 100000000 + 1/2) : ℚ) := by
    exact_mod_cast hf
  linarith

/-- `fix8` is idempotent. -/
theorem fix8_fix8 (x : ℚ) : fix8 (fix8 x) = fix8 x := fix8_int_div _

/-- `0.1` lies on the `1/10^8` grid. -/
theorem fix8_tenth : fix8 (1/10) = 1/10 := by
  have h := fix8_of_bounds (1/10) 10000000 (by norm_num) (by norm_num)
  rw [h]
  norm_num

/-- The double rounding in the source's amount computation coincides with
rounding the spec's expression `max(0.1, notional/price)` once. -/
theorem computeTradeAmount_spec (balance price : ℚ) :
    computeTradeAmount balance price = fix8 (max (1/10) (balance * (3/10) / price)) := by
  unfold computeTradeAmount
  rcases le_total (balance * (3/10) / price) (1/10) with h | h
  · have hf : fix8 (balance * (3/10) / price) ≤ 1/10 := by
      calc fix8 (balance * (3/10) / price) ≤ fix8 (1/10) := fix8_mono h
      _ = 1/10 := fix8_tenth
    rw [max_eq_left hf, max_eq_left h, fix8_tenth]
  · have hf : 1/10 ≤ fix8 (balance * (3/10) / price) := by
      calc (1/10 : ℚ) = fix8 (1/10) := fix8_tenth.symm
      _ ≤ fix8 (balance * (3/10) / price) := fix8_mono h
    rw [max_eq_right hf, max_eq_right h, fix8_fix8]

/-- The sampled percentage `(2 + Math.random() * 3).toFixed(2)` always
lies in `[2, 5]`. -/
theorem fix2_adjustment_bounds (u : ℚ) (h0 : 0 ≤ u) (h1 : u < 1) :
    2 ≤ fix2 (2 + u * 3) ∧ fix2 (2 + u * 3) ≤ 5 := by
  unfold fix2
  constructor
  · rw [le_div_iff₀ (by norm_num : (0:ℚ) < 100)]
    have : (200 : ℤ) ≤ Int.floor ((2 + u * 3) * 100 + 1/2) := by
      apply Int.le_floor.mpr
      push_cast
      linarith
    calc (2 : ℚ) * 100 = ((200 : ℤ) : ℚ) := by norm_num
    _ ≤ (Int.floor ((2 + u * 3) * 100 + 1/2) : ℚ) := by exact_mod_cast this
  · rw [div_le_iff₀ (by norm_num : (0:ℚ) < 100)]
    have : Int.floor ((2 + u * 3) * 100 + 1/2) < 501 := by
      apply Int.floor_lt.mpr
      push_cast
      linarith
    have h500 : Int.floor ((2 + u * 3) * 100 + 1/2) ≤ 500 := by omega
    calc (Int.floor ((2 + u * 3) * 100 + 1/2) : ℚ) ≤ ((500 : ℤ) : ℚ) := by exact_mod_cast h500
    _ = 5 * 100 := by norm_num

/-- `getRandomOrderCount` always lands in `{1, ..., 5}`. -/
theorem getRandomOrderCount_bounds (u : ℚ) (h0 : 0 ≤ u) (h1 : u < 1) :
    1 ≤ getRandomOrderCount u ∧ getRandomOrderCount u ≤ 5 := by
  unfold getRandomOrderCount
  refine ⟨Nat.le_add_left 1 _, ?_⟩
  have h5 : Int.floor (u * 5) < 5 := by
    apply Int.floor_lt.mpr
    push_cast
    linarith
  have h4 : Int.floor (u * 5) ≤ 4 := by omega
  have : (Int.floor (u * 5)).toNat ≤ 4 := by
    exact Int.toNat_le.mpr (by exact_mod_cast h4)
  omega

/-- C9: for every stored transaction list `t` and record `x`,
`saveTransactionData` keeps at most 20 entries: below the cap it appends,
at the cap it appends and evicts the oldest entry (index 0), preserving
the order of the rest. -/
theorem c9_transactionCap {α : Type} (t : List α) (x : α) :
    (saveTransactionList t x).length ≤ 20 ∧
    (t.length < 20 → saveTransactionList t x = t ++ [x]) ∧
    (t.length = 20 → saveTransactionList t x = t.tail ++ [x]) := by
  unfold saveTransactionList
  refine ⟨?_, ?_, ?_⟩
  · by_cases h : (t ++ [x]).length > 20
    · simp only [h, if_true, List.length_drop]
      omega
    · simp only [h, if_false]
      omega
  · intro h
    have hlen : ¬ (t ++ [x]).length > 20 := by
      simp only [List.length_append, List.length_singleton]
      omega
    simp only [hlen, if_false]
  · intro h
    have hlen : (t ++ [x]).length > 20 := by
      simp only [List.length_append, List.length_singleton]
      omega
    have hd : (t ++ [x]).length - 20 = 1 := by
      simp only [List.length_append, List.length_singleton]
      omega
    simp only [hlen, if_true, hd]
    rw [List.drop_append_of_le_length (by omega), List.drop_one]

/-- Witness for C9 at a concrete 20-entry list. -/
theorem c9_witness :
    (List.replicate 20 (0 : ℕ)).length = 20 ∧
    saveTransactionList (List.replicate 20 (0 : ℕ)) 1 =
      (List.replicate 20 (0 : ℕ)).tail ++ [1] :=
  ⟨by decide, (c9_transactionCap (List.replicate 20 (0 : ℕ)) 1).2.2 (by decide)⟩

/-- Evaluation rule for `fix8String`, mirroring `fix8_of_bounds`. -/
theorem fix8String_of_bounds (x : ℚ) (n : ℤ) (h1 : (n : ℚ) ≤ x * 100000000 + 1/2)
    (h2 : x * 100000000 + 1/2 < n + 1) :
    fix8String x =
      Nat.repr (n.toNat / 100000000) ++ "." ++
        padZeros (Nat.repr (n.toNat % 100000000)) 8 := by
  unfold fix8String
  rw [Int.floor_eq_iff.mpr ⟨h1, by push_cast; linarith⟩]

/-- The spec's concrete Sell instance: `bestAsk = 100`, `r = 3` prices at
exactly `97`. -/
theorem price_sell_100_3 : computeOrderPrice Side.sell 100 3 = 97 := by
  unfold computeOrderPrice
  rw [if_neg (by simp)]
  rw [fix8_of_bounds (100 * (1 - 3/100)) 9700000000 (by norm_num) (by norm_num)]
  norm_num

/-- The concrete Sell price formats as the string of the spec. -/
theorem priceString_sell_100_3 :
    fix8String (computeOrderPrice Side.sell 100 3) = "97.00000000" := by
  rw [price_sell_100_3,
    fix8String_of_bounds 97 9700000000 (by norm_num) (by norm_num)]
  decide

/-- The concrete trade amount for `balance = 100`, `price = 97`. -/
theorem amount_100_97 : computeTradeAmount 100 97 = 30927835 / 100000000 := by
  unfold computeTradeAmount
  rw [fix8_of_bounds (100 * (3/10) / 97) 30927835 (by norm_num) (by norm_num)]
  rw [max_eq_right (by push_cast; norm_num)]
  rw [fix8_int_div 30927835]
  push_cast
  ring

/-- The concrete trade amount formats as the string of the spec. -/
theorem amountString_100_97 :
    fix8String (computeTradeAmount 100 97) = "0.30927835" := by
  rw [amount_100_97,
    fix8String_of_bounds (30927835 / 100000000) 30927835 (by norm_num) (by norm_num)]
  decide

/-- C3 (amended): in `AutoTradingBot2` both the Buy and the Sell action are
priced at `bestAsk * (1 - r/100)` rounded to 8 decimals, with the sampled
percentage always in `[2, 5]`; in the `AutoTradingBot` variant without
`pendingOrders` only the Sell action uses that formula while a Buy is
priced at `bestBid * (1 + r/100)`. The trade amount equals
`max(0.1, 0.3 * balance / price)` to 8 decimals, and the concrete Sell with
`bestAsk = 100`, `r = 3.00`, `balance = 100` yields the price string
`"97.00000000"` and the amount string `"0.30927835"`. -/
theorem c3_pricing (action : Side) (bestBid bestAsk balance r u : ℚ)
    (h0 : 0 ≤ u) (h1 : u < 1) :
    computeOrderPrice action bestAsk r = fix8 (bestAsk * (1 - r / 100)) ∧
    computePriceV3 Side.sell bestBid bestAsk r = fix8 (bestAsk * (1 - r / 100)) ∧
    computePriceV3 Side.buy bestBid bestAsk r = fix8 (bestBid * (1 + r / 100)) ∧
    (2 ≤ fix2 (2 + u * 3) ∧ fix2 (2 + u * 3) ≤ 5) ∧
    computeTradeAmount balance (computeOrderPrice action bestAsk r) =
      fix8 (max (1/10) (balance * (3/10) / computeOrderPrice action bestAsk r)) ∧
    computeOrderPrice Side.sell 100 3 = 97 ∧
    fix8String (computeOrderPrice Side.sell 100 3) = "97.00000000" ∧
    computeTradeAmount 100 (computeOrderPrice Side.sell 100 3) =
      fix8 (max (1/10) (100 * (3/10) / 97)) ∧
    fix8String (computeTradeAmount 100 (computeOrderPrice Side.sell 100 3)) =
      "0.30927835" := by
  refine ⟨?_, rfl, rfl, fix2_adjustment_bounds u h0 h1, computeTradeAmount_spec _ _,
    price_sell_100_3, priceString_sell_100_3, ?_, ?_⟩
  · cases action <;> rfl
  · rw [price_sell_100_3, computeTradeAmount_spec]
  · rw [price_sell_100_3, amountString_100_97]

/-- Witness for C3 at the spec's concrete Sell instance (`u = 0`). -/
theorem c3_witness :
    (0 : ℚ) ≤ 0 ∧ (0 : ℚ) < 1 ∧
    (computeOrderPrice Side.sell 100 3 = fix8 (100 * (1 - 3 / 100)) ∧
      computePriceV3 Side.sell 95 100 3 = fix8 (100 * (1 - 3 / 100)) ∧
      computePriceV3 Side.buy 95 100 3 = fix8 (95 * (1 + 3 / 100)) ∧
      (2 ≤ fix2 (2 + 0 * 3) ∧ fix2 (2 + 0 * 3) ≤ 5) ∧
      computeTradeAmount 100 (computeOrderPrice Side.sell 100 3) =
        fix8 (max (1/10) (100 * (3/10) / computeOrderPrice Side.sell 100 3)) ∧
      computeOrderPrice Side.sell 100 3 = 97 ∧
      fix8String (computeOrderPrice Side.sell 100 3) = "97.00000000" ∧
      computeTradeAmount 100 (computeOrderPrice Side.sell 100 3) =
        fix8 (max (1/10) (100 * (3/10) / 97)) ∧
      fix8String (computeTradeAmount 100 (computeOrderPrice Side.sell 100 3)) =
        "0.30927835") :=
  ⟨le_refl 0, by norm_num, c3_pricing Side.sell 95 100 100 3 0 (le_refl 0) (by norm_num)⟩

theorem countMatchAttempts_cons_match (es : List Event) :
    countMatchAttempts (Event.matchAttempt :: es) = countMatchAttempts es + 1 := rfl

theorem countMatchAttempts_cons_create (m : String) (sd : Side) (a p : String)
    (r : Option String) (es : List Event) :
    countMatchAttempts (Event.createAttempt m sd a p r :: es) =
      countMatchAttempts es := rfl

/-- One `createMatchingOrder` invocation records exactly one attempt. -/
theorem createMatchingOrder_matchCount (w : W) (od : OrderDetails) :
    countMatchAttempts ((createMatchingOrder w od).1.events) =
      countMatchAttempts w.events + 1 := by
  unfold createMatchingOrder createOrder
  rcases od with ⟨ty, am, pr, cpc, mk⟩
  by_cases ha : am = "" <;> by_cases hp : pr = "" <;>
    cases cpc <;>
      simp [ha, hp, W.record, W.popCreate, countMatchAttempts_cons_match,
        countMatchAttempts_cons_create]

/-- `createMatchingOrder` never touches the shutdown flag or the pending
map. -/
theorem createMatchingOrder_state (w : W) (od : OrderDetails) :
    (createMatchingOrder w od).1.isShuttingDown = w.isShuttingDown ∧
    (createMatchingOrder w od).1.pendingOrders = w.pendingOrders := by
  unfold createMatchingOrder createOrder
  rcases od with ⟨ty, am, pr, cpc, mk⟩
  by_cases ha : am = "" <;> by_cases hp : pr = "" <;>
    cases cpc <;> simp [ha, hp, W.record, W.popCreate]

/-- When the caller did not provide `currencyPairCode` — as
`AutoTradingBot2.executeTradeAction` and its `pendingOrders` entries do
not — `createMatchingOrder` always fails without reaching the exchange. -/
theorem createMatchingOrder_none (w : W) (od : OrderDetails)
    (h : od.currencyPairCode = none) :
    (createMatchingOrder w od).2 = none ∧
    (createMatchingOrder w od).1 = w.record Event.matchAttempt := by
  unfold createMatchingOrder
  rcases od with ⟨ty, am, pr, cpc, mk⟩
  simp only at h
  subst h
  by_cases ha : am = "" <;> by_cases hp : pr = "" <;> simp [ha, hp]

/-- Intended behaviour of `createMatchingOrder` when the caller does pass
`currencyPairCode` (as the Azbit `AutoTradingBot.executeTradeAction`
does, packaged lines 969-974): the exchange receives the opposite side
with exactly the first order's amount and price, on the market obtained
from the pair code. -/
theorem createMatchingOrder_intended (w : W) (od : OrderDetails) (cpc : String)
    (hc : od.currencyPairCode = some cpc) (ha : ¬ od.amount = "")
    (hp : ¬ od.price = "") :
    (createMatchingOrder w od).1.events =
      Event.createAttempt (replaceFirst cpc '_' "/") (flipSide od.type)
          od.amount od.price (w.env.createResults.headD none) ::
        Event.matchAttempt :: w.events := by
  unfold createMatchingOrder createOrder
  rcases od with ⟨ty, am, pr, cpc', mk⟩
  simp only at hc ha hp
  subst hc
  simp [ha, hp, W.record, W.popCreate]

/-- The per-entry induction behind the shutdown handler: one matching
attempt per pending entry, flag untouched. -/
theorem shutdownPair_matchCount (l : List (String × OrderDetails)) :
    ∀ w : W,
      countMatchAttempts ((shutdownPair w l).events) =
        countMatchAttempts w.events + l.length ∧
      (shutdownPair w l).isShuttingDown = w.isShuttingDown := by
  induction l with
  | nil => intro w; simp [shutdownPair]
  | cons p rest ih =>
    intro w
    rcases p with ⟨orderId, od⟩
    have h1 := createMatchingOrder_matchCount w od
    have h2 := (createMatchingOrder_state w od).1
    have ih1 := ih { (createMatchingOrder w od).1 with
      pendingOrders := eraseKey (createMatchingOrder w od).1.pendingOrders orderId }
    simp only [shutdownPair]
    constructor
    · rw [ih1.1]
      simp only []
      rw [h1]
      simp [List.length_cons]
      omega
    · rw [ih1.2]
      exact h2

/-- C6: on the first termination signal the shutdown handler sets the
flag, makes exactly one matching-order creation attempt per entry of the
pending map — regardless of each attempt's outcome — and then exits the
process. -/
theorem c6_shutdown (w : W) (h : w.isShuttingDown = false) :
    countMatchAttempts ((handleShutdown w).events) =
      countMatchAttempts w.events + w.pendingOrders.length ∧
    (handleShutdown w).events.head? = some (Event.exitProcess 0) ∧
    (handleShutdown w).isShuttingDown = true := by
  unfold handleShutdown
  rw [if_neg (by simp [h])]
  have hs := shutdownPair_matchCount w.pendingOrders { w with isShuttingDown := true }
  refine ⟨?_, by simp [W.record], ?_⟩
  · simp only [W.record]
    have : countMatchAttempts
        (Event.exitProcess 0 :: (shutdownPair { w with isShuttingDown := true }
          w.pendingOrders).events) =
        countMatchAttempts ((shutdownPair { w with isShuttingDown := true }
          w.pendingOrders).events) := rfl
    rw [this, hs.1]
  · simp only [W.record]
    rw [hs.2]

/-- Witness for C6: with 2 pending orders, exactly 2 matching-order
creation attempts happen before the process exit. -/
theorem c6_witness :
    countMatchAttempts ((handleShutdown c6World).events) =
      countMatchAttempts c6World.events + c6World.pendingOrders.length ∧
    (handleShutdown c6World).events.head? = some (Event.exitProcess 0) ∧
    (handleShutdown c6World).isShuttingDown = true :=
  c6_shutdown c6World rfl

/-- C1 code evaluation: after a successful first order whose matching
order creation fails (as it always does in `AutoTradingBot2`, the
`currencyPairCode` field being absent), the `pendingOrders` entry is
nevertheless gone — the deletion at line 242 is unconditional — leaving
nothing for shutdown reconciliation. -/
theorem c1_unconditional_delete :
    (executeTradeAction 5 c1World Side.buy "BRIL/USDT" "97.00000000"
        "0.30927835").pendingOrders = [] ∧
    countMatchAttempts ((executeTradeAction 5 c1World Side.buy "BRIL/USDT"
        "97.00000000" "0.30927835").events) = 1 ∧
    countCreates ((executeTradeAction 5 c1World Side.buy "BRIL/USDT"
        "97.00000000" "0.30927835").events) = 1 := by
  decide

/-- C8 code evaluation: `createMatchingOrder` invoked with the record that
`AutoTradingBot2.executeTradeAction` builds returns `null` without any
exchange call (reading the absent `currencyPairCode` raises a `TypeError`
that the `catch` swallows), so a pair attempt performs exactly one
exchange order creation and never creates the matching order. -/
theorem c8_no_matching_order :
    createMatchingOrder baseW c8Od = (baseW.record Event.matchAttempt, none) ∧
    countCreates ((executeTradeAction 5 c1World Side.buy "BRIL/USDT"
        "97.00000000" "0.30927835").events) = 1 ∧
    (executeTradeAction 5 c1World Side.buy "BRIL/USDT" "97.00000000"
        "0.30927835").events =
      [Event.matchAttempt, Event.statusCheck,
       Event.createAttempt "BRIL/USDT" Side.buy "0.30927835" "97.00000000"
         (some "o1")] := by
  decide

/-- A pair attempt never touches the session bookkeeping: whatever the
oracle answers, `executeTradeAction` leaves `ordersInCurrentCycle`,
`lastAction`, `currentCycle`, `targetOrdersInCycle`, the shutdown flag and
the transaction log unchanged. (The one code path that could — the
fill-polling loop's nested `executeTrade` call — is unreachable in
`AutoTradingBot2` because `createMatchingOrder` always returns `null`
there, see `createMatchingOrder_none`.) -/
theorem tradeAction_preserves (fuel : ℕ) (w : W) (action : Side)
    (symbol price amount : String) :
    (run fuel w (Call.tradeAction action symbol price amount)).ordersInCurrentCycle =
      w.ordersInCurrentCycle ∧
    (run fuel w (Call.tradeAction action symbol price amount)).lastAction =
      w.lastAction ∧
    (run fuel w (Call.tradeAction action symbol price amount)).currentCycle =
      w.currentCycle ∧
    (run fuel w (Call.tradeAction action symbol price amount)).targetOrdersInCycle =
      w.targetOrdersInCycle ∧
    (run fuel w (Call.tradeAction action symbol price amount)).isShuttingDown =
      w.isShuttingDown ∧
    (run fuel w (Call.tradeAction action symbol price amount)).transactions =
      w.transactions := by
  cases fuel with
  | zero => exact ⟨rfl, rfl, rfl, rfl, rfl, rfl⟩
  | succ f =>
    simp only [run, createOrder, getOrderStatus, W.popCreate, W.popStatus, W.record]
    cases hc : w.env.createResults.headD none with
    | none => simp
    | some id =>
      by_cases hs :
          (w.env.statuses.headD { status := "error", filled := 0 }).status = "error"
      · simp only []
        rw [if_pos hs]
        exact ⟨rfl, rfl, rfl, rfl, rfl, rfl⟩
      · simp only []
        rw [if_neg hs]
        rw [(createMatchingOrder_none _ _ rfl).1, (createMatchingOrder_none _ _ rfl).2]
        simp [W.record]

/-- C4: `ordersInCurrentCycle` moves only at its two source sites — the
pair attempt itself never changes it, the cycle bootstrap resets it to 0
exactly when `ordersInCurrentCycle >= targetOrdersInCycle` holds (and is a
no-op otherwise), and the post-attempt bookkeeping increments it by
exactly 1 before either continuing with the next order or returning. -/
theorem c4_orderCounter (fuel : ℕ) (w : W) (action : Side)
    (exchange symbol price amount : String) :
    (executeTradeAction fuel w action symbol price amount).ordersInCurrentCycle =
      w.ordersInCurrentCycle ∧
    (maybeStartNewCycle w).ordersInCurrentCycle =
      (if w.targetOrdersInCycle ≤ w.ordersInCurrentCycle then 0
       else w.ordersInCurrentCycle) ∧
    (¬ w.targetOrdersInCycle ≤ w.ordersInCurrentCycle → maybeStartNewCycle w = w) ∧
    completeAttempt (fuel + 1) w action exchange symbol =
      (if w.ordersInCurrentCycle + 1 < w.targetOrdersInCycle ∧
          w.isShuttingDown = false then
        executeTrade fuel
          (W.wait { w with
              ordersInCurrentCycle := w.ordersInCurrentCycle + 1
              lastAction := action } 5000) exchange symbol
      else { w with
        ordersInCurrentCycle := w.ordersInCurrentCycle + 1
        lastAction := action }) := by
  refine ⟨(tradeAction_preserves fuel w action symbol price amount).1, ?_, ?_, ?_⟩
  · unfold maybeStartNewCycle
    split
    · next h => simp [W.popOrderCount, W.record, h]
    · next h => simp [h]
  · intro h
    unfold maybeStartNewCycle
    rw [if_neg h]
  · unfold completeAttempt run executeTrade
    rfl

/-- Witness for C4 at a concrete state below the cycle target. -/
theorem c4_witness :
    (executeTradeAction 3 baseW Side.buy "BRIL/USDT" "1" "2").ordersInCurrentCycle =
      baseW.ordersInCurrentCycle ∧
    (maybeStartNewCycle baseW).ordersInCurrentCycle =
      (if baseW.targetOrdersInCycle ≤ baseW.ordersInCurrentCycle then 0
       else baseW.ordersInCurrentCycle) ∧
    (¬ baseW.targetOrdersInCycle ≤ baseW.ordersInCurrentCycle →
      maybeStartNewCycle baseW = baseW) ∧
    completeAttempt 4 baseW Side.buy "P2PB2B" "BRIL/USDT" =
      (if baseW.ordersInCurrentCycle + 1 < baseW.targetOrdersInCycle ∧
          baseW.isShuttingDown = false then
        executeTrade 3
          (W.wait { baseW with
              ordersInCurrentCycle := baseW.ordersInCurrentCycle + 1
              lastAction := Side.buy } 5000) "P2PB2B" "BRIL/USDT"
      else { baseW with
        ordersInCurrentCycle := baseW.ordersInCurrentCycle + 1
        lastAction := Side.buy }) :=
  c4_orderCounter 3 baseW Side.buy "P2PB2B" "BRIL/USDT" "1" "2"

/-- C7: when `executeTrade` observes `ordersInCurrentCycle >=
targetOrdersInCycle` it performs exactly the four bootstrap updates —
increment `currentCycle`, reset `ordersInCurrentCycle` to 0, redraw
`targetOrdersInCycle` into `{1,...,5}`, flip `lastAction` — and leaves the
rest of the session untouched; `getRandomOrderCount` always lands in
`{1,...,5}`; and the pair attempt itself never writes `lastAction`, so the
bootstrap flip is the only cross-cycle alternation point. -/
theorem c7_cycleBootstrap (w : W) (fuel : ℕ) (action : Side)
    (symbol price amount : String)
    (hu0 : 0 ≤ w.env.orderCounts.headD 0) (hu1 : w.env.orderCounts.headD 0 < 1)
    (ht : w.targetOrdersInCycle ≤ w.ordersInCurrentCycle) :
    (maybeStartNewCycle w).currentCycle = w.currentCycle + 1 ∧
    (maybeStartNewCycle w).ordersInCurrentCycle = 0 ∧
    (1 ≤ (maybeStartNewCycle w).targetOrdersInCycle ∧
      (maybeStartNewCycle w).targetOrdersInCycle ≤ 5) ∧
    (maybeStartNewCycle w).lastAction = flipSide w.lastAction ∧
    (maybeStartNewCycle w).pendingOrders = w.pendingOrders ∧
    (maybeStartNewCycle w).isShuttingDown = w.isShuttingDown ∧
    (maybeStartNewCycle w).transactions = w.transactions ∧
    (∀ u : ℚ, 0 ≤ u → u < 1 →
      1 ≤ getRandomOrderCount u ∧ getRandomOrderCount u ≤ 5) ∧
    (executeTradeAction fuel w action symbol price amount).lastAction =
      w.lastAction := by
  have hb := getRandomOrderCount_bounds (w.env.orderCounts.headD 0) hu0 hu1
  unfold maybeStartNewCycle
  rw [if_pos ht]
  exact ⟨by simp [W.popOrderCount, W.record], by simp [W.popOrderCount, W.record],
    by simpa [W.popOrderCount, W.record] using hb,
    by simp [W.popOrderCount, W.record], by simp [W.popOrderCount, W.record],
    by simp [W.popOrderCount, W.record], by simp [W.popOrderCount, W.record],
    fun u h0 h1 => getRandomOrderCount_bounds u h0 h1,
    (tradeAction_preserves fuel w action symbol price amount).2.1⟩

/-- Witness for C7 at a concrete state that has reached its cycle target. -/
theorem c7_witness :
    (maybeStartNewCycle c7World).currentCycle = c7World.currentCycle + 1 ∧
    (maybeStartNewCycle c7World).ordersInCurrentCycle = 0 ∧
    (1 ≤ (maybeStartNewCycle c7World).targetOrdersInCycle ∧
      (maybeStartNewCycle c7World).targetOrdersInCycle ≤ 5) ∧
    (maybeStartNewCycle c7World).lastAction = flipSide c7World.lastAction ∧
    (maybeStartNewCycle c7World).pendingOrders = c7World.pendingOrders ∧
    (maybeStartNewCycle c7World).isShuttingDown = c7World.isShuttingDown ∧
    (maybeStartNewCycle c7World).transactions = c7World.transactions ∧
    (∀ u : ℚ, 0 ≤ u → u < 1 →
      1 ≤ getRandomOrderCount u ∧ getRandomOrderCount u ≤ 5) ∧
    (executeTradeAction 3 c7World Side.buy "BRIL/USDT" "1" "2").lastAction =
      c7World.lastAction :=
  c7_cycleBootstrap c7World 3 Side.buy "BRIL/USDT" "1" "2"
    (by norm_num [c7World, emptyEnv]) (by norm_num [c7World, emptyEnv]) (by decide)

/-- C3 counterexample: in the `AutoTradingBot` variant without
`pendingOrders`, a Buy with `bestBid = 100`, `bestAsk = 104` and `r = 3` is
priced at `103`, not at the claimed `bestAsk * (1 - r/100)`. -/
theorem c3_counterexample :
    computePriceV3 Side.buy 100 104 3 = 103 ∧
    ¬ computePriceV3 Side.buy 100 104 3 = fix8 (104 * (1 - 3 / 100)) := by
  have hb : computePriceV3 Side.buy 100 104 3 = 103 := by
    unfold computePriceV3
    rw [if_pos rfl,
      fix8_of_bounds (100 * (1 + 3/100)) 10300000000 (by norm_num) (by norm_num)]
    norm_num
  have hs : fix8 (104 * (1 - 3 / 100)) = 2522 / 25 := by
    rw [fix8_of_bounds (104 * (1 - 3/100)) 10088000000 (by norm_num) (by norm_num)]
    norm_num
  refine ⟨hb, ?_⟩
  rw [hb, hs]
  norm_num

/-- C10: if the status check right after the first order's creation
reports `'error'`, `executeTradeAction` returns at that point — no
`PendingOrder` is ever registered, no matching order is attempted, and
a later shutdown (which only pairs entries of the pending map) makes no
attempt for the resting order either. -/
theorem c10_statusError (fuel : ℕ) (w : W) (action : Side)
    (symbol price amount : String) (id : String)
    (hc : w.env.createResults.headD none = some id)
    (hs : (w.env.statuses.headD { status := "error", filled := 0 }).status =
      "error") :
    executeTradeAction (fuel + 1) w action symbol price amount =
      { w with
        env := { w.env with
          createResults := w.env.createResults.tail
          statuses := w.env.statuses.tail }
        events := Event.statusCheck ::
          Event.createAttempt symbol action amount price (some id) :: w.events } ∧
    (executeTradeAction (fuel + 1) w action symbol price amount).pendingOrders =
      w.pendingOrders ∧
    countMatchAttempts
      ((executeTradeAction (fuel + 1) w action symbol price amount).events) =
      countMatchAttempts w.events ∧
    (w.pendingOrders = [] →
      countMatchAttempts ((handleShutdown (executeTradeAction (fuel + 1) w action
        symbol price amount)).events) = countMatchAttempts w.events) := by
  have hmain : executeTradeAction (fuel + 1) w action symbol price amount =
      { w with
        env := { w.env with
          createResults := w.env.createResults.tail
          statuses := w.env.statuses.tail }
        events := Event.statusCheck ::
          Event.createAttempt symbol action amount price (some id) :: w.events } := by
    unfold executeTradeAction
    simp only [run, createOrder, getOrderStatus, W.popCreate, W.popStatus, W.record]
    rw [hc]
    simp only []
    rw [if_pos hs]
  refine ⟨hmain, by rw [hmain], by rw [hmain]; rfl, ?_⟩
  intro hpend
  rw [hmain]
  unfold handleShutdown
  by_cases hsd : w.isShuttingDown
  · rw [if_pos (by simpa using hsd)]
    rfl
  · rw [if_neg (by simpa using hsd)]
    simp only [hpend]
    rfl

/-- Witness for C10 at the concrete error-status scenario. -/
theorem c10_witness :
    executeTradeAction 4 c10World Side.buy "BRIL/USDT" "2" "1" =
      { c10World with
        env := { c10World.env with
          createResults := c10World.env.createResults.tail
          statuses := c10World.env.statuses.tail }
        events := Event.statusCheck ::
          Event.createAttempt "BRIL/USDT" Side.buy "1" "2" (some "o1") ::
            c10World.events } ∧
    (executeTradeAction 4 c10World Side.buy "BRIL/USDT" "2" "1").pendingOrders =
      c10World.pendingOrders ∧
    countMatchAttempts
      ((executeTradeAction 4 c10World Side.buy "BRIL/USDT" "2" "1").events) =
      countMatchAttempts c10World.events ∧
    (c10World.pendingOrders = [] →
      countMatchAttempts ((handleShutdown (executeTradeAction 4 c10World Side.buy
        "BRIL/USDT" "2" "1")).events) = countMatchAttempts c10World.events) :=
  c10_statusError 3 c10World Side.buy "BRIL/USDT" "2" "1" "o1" rfl rfl

/-- C2 (amended): when `createOrder` returns `null`, `executeTradeAction`
aborts the attempt and returns normally (its `Except` view is always
`ok`), so the failure never reaches `executeTrade`'s catch-based retry
wrapper: no 5-second retry pauses and no 60-second backoff happen — the
retry loop's single pass just runs the attempt and proceeds to the
post-attempt bookkeeping, which counts the failed attempt as a completed
order. -/
theorem c2_createOrderFailure (fuel : ℕ) (w : W) (action : Side)
    (exchange symbol price amount : String)
    (hf : w.env.createResults.headD none = none) :
    executeTradeActionE fuel w action symbol price amount =
      Except.ok (executeTradeAction fuel w action symbol price amount) ∧
    executeTradeAction (fuel + 1) w action symbol price amount =
      { w with
        env := { w.env with createResults := w.env.createResults.tail }
        events := Event.createAttempt symbol action amount price none ::
          w.events } ∧
    (w.isShuttingDown = false →
      attemptLoop (fuel + 1) 3 w action exchange symbol price amount =
        completeAttempt fuel (executeTradeAction fuel w action symbol price amount)
          action exchange symbol) := by
  refine ⟨rfl, ?_, ?_⟩
  · unfold executeTradeAction
    simp only [run, createOrder, W.popCreate, W.record]
    rw [hf]
  · intro hsd
    unfold attemptLoop completeAttempt executeTradeAction
    simp only [run]
    rw [if_neg (by simp [hsd])]

/-- Witness for C2's amended statement: the fresh bot's oracle answers
every order creation with `null`. -/
theorem c2_witness :
    executeTradeActionE 3 baseW Side.buy "BRIL/USDT" "2" "1" =
      Except.ok (executeTradeAction 3 baseW Side.buy "BRIL/USDT" "2" "1") ∧
    executeTradeAction 4 baseW Side.buy "BRIL/USDT" "2" "1" =
      { baseW with
        env := { baseW.env with createResults := baseW.env.createResults.tail }
        events := Event.createAttempt "BRIL/USDT" Side.buy "1" "2" none ::
          baseW.events } ∧
    (baseW.isShuttingDown = false →
      attemptLoop 4 3 baseW Side.buy "P2PB2B" "BRIL/USDT" "2" "1" =
        completeAttempt 3 (executeTradeAction 3 baseW Side.buy "BRIL/USDT" "2" "1")
          Side.buy "P2PB2B" "BRIL/USDT") :=
  c2_createOrderFailure 3 baseW Side.buy "P2PB2B" "BRIL/USDT" "2" "1" rfl

/-- C2 counterexample: with order creation failing persistently, the
engine makes exactly one creation attempt — no 3-attempt retry, no
5-second retry pause, no 60-second backoff, no restart — counts the
failed attempt as a completed order, and this `executeTrade` invocation
simply returns. -/
theorem c2_counterexample :
    countCreates ((executeTrade 6 c2World "P2PB2B" "BRIL/USDT").events) = 1 ∧
    Event.wait 60000 ∉ (executeTrade 6 c2World "P2PB2B" "BRIL/USDT").events ∧
    Event.wait 5000 ∉ (executeTrade 6 c2World "P2PB2B" "BRIL/USDT").events ∧
    (executeTrade 6 c2World "P2PB2B" "BRIL/USDT").ordersInCurrentCycle = 1 := by
  decide

/-- A pair attempt performs no fill-polling rounds in `AutoTradingBot2`:
the loop is guarded by a successful matching order, which never exists. -/
theorem tradeAction_rounds (fuel : ℕ) (w : W) (action : Side)
    (symbol price amount : String) :
    countRounds ((run fuel w (Call.tradeAction action symbol price amount)).events) =
      countRounds w.events := by
  cases fuel with
  | zero => rfl
  | succ f =>
    simp only [run, createOrder, getOrderStatus, W.popCreate, W.popStatus, W.record]
    cases hc : w.env.createResults.headD none with
    | none => simp [countRounds]
    | some id =>
      by_cases hs :
          (w.env.statuses.headD { status := "error", filled := 0 }).status = "error"
      · simp only []
        rw [if_pos hs]
        rfl
      · simp only []
        rw [if_neg hs]
        rw [(createMatchingOrder_none _ _ rfl).1, (createMatchingOrder_none _ _ rfl).2]
        rfl

/-- The cycle bootstrap records no polling rounds. -/
theorem maybeStartNewCycle_rounds (w : W) :
    countRounds ((maybeStartNewCycle w).events) = countRounds w.events := by
  unfold maybeStartNewCycle
  split
  · simp [W.popOrderCount, W.record, countRounds]
  · rfl

/-- Every control point with no remaining poll budget — in particular the
whole engine outside the polling loop — performs no polling rounds at all. -/
theorem run_rounds_nonpoll : ∀ (fuel : ℕ) (w : W) (c : Call),
    pollBudget c = 0 →
    countRounds ((run fuel w c).events) = countRounds w.events := by
  intro fuel
  induction fuel with
  | zero => intro w c _; rfl
  | succ f ih =>
    intro w c hb
    cases c with
    | trade exchange symbol =>
      simp only [run]
      split
      · rfl
      · cases hob : w.env.orderBooks.headD none with
        | none =>
          simp only [W.popOrderBook, hob]
          rw [ih _ (Call.trade exchange symbol) rfl]
          rfl
        | some pq =>
          cases pq with
          | mk bestBid bestAsk =>
            simp only [W.popOrderBook, hob]
            split
            · rw [ih _ (Call.trade exchange symbol) rfl]
              exact maybeStartNewCycle_rounds _
            · rw [ih _ (Call.attemptStep 3 _ exchange symbol _ _) rfl]
              exact maybeStartNewCycle_rounds _
    | attemptStep n action exchange symbol price amount =>
      simp only [run]
      cases n with
      | zero => rfl
      | succ m =>
        simp only []
        split
        · rfl
        · rw [ih _ (Call.complete action exchange symbol) rfl, tradeAction_rounds]
    | complete action exchange symbol =>
      simp only [run]
      split
      · rw [ih _ (Call.trade exchange symbol) rfl]
        rfl
      · rfl
    | tradeAction action symbol price amount =>
      exact tradeAction_rounds _ _ _ _ _ _
    | poll rc action symbol firstId matchingId amount price =>
      have hrc : 5 ≤ rc := by
        simp only [pollBudget] at hb
        omega
      simp only [run]
      rw [if_neg (by omega)]

/-- The fill-polling loop entered at `retryCount = rc` performs at most
`5 - rc` further rounds, whatever the statuses report. -/
theorem poll_rounds_bound : ∀ (fuel : ℕ) (w : W) (rc : ℕ) (action : Side)
    (symbol firstId matchingId amount price : String),
    countRounds ((run fuel w
      (Call.poll rc action symbol firstId matchingId amount price)).events) ≤
      countRounds w.events + (5 - rc) := by
  intro fuel
  induction fuel with
  | zero => intro w rc _ _ _ _ _ _; simp [run]
  | succ f ih =>
    intro w rc action symbol firstId matchingId amount price
    simp only [run]
    split
    · next hguard =>
      simp only [getOrderStatus, W.popStatus, W.record, W.wait]
      split
      · refine le_trans (ih _ _ _ _ _ _ _ _) ?_
        simp only [countRounds]
        omega
      · split
        · simp only [saveTransactionData, W.record, W.wait]
          split
          · rw [run_rounds_nonpoll _ _ (Call.trade "P2PB2B" symbol) rfl]
            simp only [countRounds]
            omega
          · simp only [countRounds]
            omega
        · refine le_trans (ih _ _ _ _ _ _ _ _) ?_
          simp only [countRounds]
          omega
    · omega

set_option maxHeartbeats 1600000 in
/-- C5 (amended): the fill-polling loop exits immediately once
`retryCount` reaches 5; a round whose status pair reports an error — or
reports fills below the 99% threshold — consumes exactly one of the 5
attempts after the 2-second wait, without any other effect (in the error
case the fill percentages are never evaluated); the loop performs at most
`5 - retryCount` further rounds in every case; on the concrete fixture
whose both legs report 99.5% on attempt 3 of 5 the loop exits successfully
at attempt 3, not 5, leaving the remaining status answers unconsumed; and
after a pair attempt returns, the engine proceeds to the next order only
when the cycle still needs one — otherwise the bookkeeping step just
increments the counter and returns, starting no new cycle. -/
theorem c5_pollLoop :
    (∀ (fuel : ℕ) (w : W) (rc : ℕ) (action : Side)
        (symbol firstId matchingId amount price : String), 5 ≤ rc →
      pollLoop fuel w rc action symbol firstId matchingId amount price = w) ∧
    (∀ (fuel : ℕ) (w : W) (rc : ℕ) (action : Side)
        (symbol firstId matchingId amount price : String),
      rc < 5 → w.isShuttingDown = false →
      ((w.env.statuses.headD { status := "error", filled := 0 }).status =
          "error" ∨
        (w.env.statuses.tail.headD { status := "error", filled := 0 }).status =
          "error") →
      pollLoop (fuel + 1) w rc action symbol firstId matchingId amount price =
        pollLoop fuel (pollStep w rc) (rc + 1) action symbol firstId matchingId
          amount price) ∧
    (∀ (fuel : ℕ) (w : W) (rc : ℕ) (action : Side)
        (symbol firstId matchingId amount price : String),
      rc < 5 → w.isShuttingDown = false →
      ¬ (w.env.statuses.headD { status := "error", filled := 0 }).status =
        "error" →
      ¬ (w.env.statuses.tail.headD { status := "error", filled := 0 }).status =
        "error" →
      ¬ (99 ≤ (w.env.statuses.headD { status := "error", filled := 0 }).filled ∧
         99 ≤ (w.env.statuses.tail.headD
            { status := "error", filled := 0 }).filled) →
      pollLoop (fuel + 1) w rc action symbol firstId matchingId amount price =
        pollLoop fuel (pollStep w rc) (rc + 1) action symbol firstId matchingId
          amount price) ∧
    (∀ (fuel : ℕ) (w : W) (rc : ℕ) (action : Side)
        (symbol firstId matchingId amount price : String),
      countRounds ((pollLoop fuel w rc action symbol firstId matchingId amount
        price).events) ≤ countRounds w.events + (5 - rc)) ∧
    (countRounds ((pollLoop 11 c5FixtureW 0 Side.buy "BRIL/USDT" "o1" "m1" "a"
        "p").events) = 3 ∧
      Event.bothFilled ∈ (pollLoop 11 c5FixtureW 0 Side.buy "BRIL/USDT" "o1"
        "m1" "a" "p").events ∧
      (pollLoop 11 c5FixtureW 0 Side.buy "BRIL/USDT" "o1" "m1" "a"
        "p").env.statuses.length = 4) ∧
    (∀ (fuel : ℕ) (w : W) (action : Side) (exchange symbol : String),
      ¬ (w.ordersInCurrentCycle + 1 < w.targetOrdersInCycle ∧
          w.isShuttingDown = false) →
      completeAttempt (fuel + 1) w action exchange symbol =
        { w with
          ordersInCurrentCycle := w.ordersInCurrentCycle + 1
          lastAction := action }) := by
  refine ⟨?_, ?_, ?_, ?_, by decide, ?_⟩
  · intro fuel w rc action symbol firstId matchingId amount price hrc
    cases fuel with
    | zero => rfl
    | succ f =>
      unfold pollLoop
      simp only [run]
      rw [if_neg (by omega)]
  · intro fuel w rc action symbol firstId matchingId amount price hrc hsd herr
    unfold pollLoop
    simp only [run, getOrderStatus, W.popStatus, W.record, W.wait]
    rw [if_pos ⟨hrc, hsd⟩, if_pos herr]
    rfl
  · intro fuel w rc action symbol firstId matchingId amount price hrc hsd h1 h2
      hfill
    unfold pollLoop
    simp only [run, getOrderStatus, W.popStatus, W.record, W.wait]
    rw [if_pos ⟨hrc, hsd⟩, if_neg (fun h => h.elim h1 h2), if_neg hfill]
    rfl
  · intro fuel w rc action symbol firstId matchingId amount price
    exact poll_rounds_bound fuel w rc action symbol firstId matchingId amount
      price
  · intro fuel w action exchange symbol hno
    unfold completeAttempt
    simp only [run]
    rw [if_neg hno]

/-- Witness for C5: a concrete error round consumes exactly one attempt,
and a loop already at `retryCount = 5` exits untouched. -/
theorem c5_witness :
    pollLoop 3 c5ErrW 0 Side.buy "BRIL/USDT" "o1" "m1" "a" "p" =
      pollLoop 2 (pollStep c5ErrW 0) 1 Side.buy "BRIL/USDT" "o1" "m1" "a" "p" ∧
    pollLoop 7 c5ErrW 5 Side.buy "BRIL/USDT" "o1" "m1" "a" "p" = c5ErrW :=
  ⟨c5_pollLoop.2.1 2 c5ErrW 0 Side.buy "BRIL/USDT" "o1" "m1" "a" "p"
      (by omega) rfl (Or.inl rfl),
    c5_pollLoop.1 7 c5ErrW 5 Side.buy "BRIL/USDT" "o1" "m1" "a" "p" (by omega)⟩

/-- C5 counterexample: after the loop exhausts all 5 attempts on the last
order of its cycle, the engine does not proceed to a next cycle — the
bookkeeping step only increments the counter and returns: no new-cycle
bootstrap and no further order creation ever happen. -/
theorem c5_counterexample :
    countRounds c5ExhaustEnd.events = 5 ∧
    Event.bothFilled ∉ c5ExhaustEnd.events ∧
    completeAttempt 11 c5ExhaustEnd Side.buy "P2PB2B" "BRIL/USDT" =
      { c5ExhaustEnd with ordersInCurrentCycle := 1, lastAction := Side.buy } ∧
    countCreates ((completeAttempt 11 c5ExhaustEnd Side.buy "P2PB2B"
      "BRIL/USDT").events) = 0 ∧
    countNewCycles ((completeAttempt 11 c5ExhaustEnd Side.buy "P2PB2B"
      "BRIL/USDT").events) = 0 := by
  decide

end Bot
